import Mathlib

/-!
Verification development for the intent-classification-and-dispatch workflow
engine of the repository (backend/views/workflow_processor.py).

The Python source is shallowly embedded: strings are Lean `String`s, JSON
payloads are a small `JVal` type, the network is an explicit "world" of
canned HTTP outcomes, and Python exceptions are `Except PyExn`.  Regular
expressions from the source are embedded as dedicated scanners that follow
Python `re` semantics (leftmost search, ordered alternation, greedy or lazy
quantifiers with backtracking) for the exact patterns appearing in the code.
-/

/-! ## Python-style string primitives -/

/-- Python whitespace class `\s` (ASCII fragment: space, tab, newline,
carriage return, vertical tab, form feed). -/
def isPyWs (c : Char) : Bool :=
  c = ' ' || c = '\t' || c = '\n' || c = '\r' || c = Char.ofNat 11 || c = Char.ofNat 12

/-- The double-quote character. -/
def dquoteChar : Char := Char.ofNat 34

/-- The single-quote character. -/
def squoteChar : Char := Char.ofNat 39

/-- Python `str.lower()` (ASCII). -/
def pyLower (s : String) : String := ⟨s.data.map Char.toLower⟩

/-- Python `str.strip()`: remove leading and trailing whitespace. -/
def pyStripL (cs : List Char) : List Char := cs.dropWhile isPyWs

/-- Python `str.strip()` on a char list. -/
def pyStripList (cs : List Char) : List Char :=
  ((cs.dropWhile isPyWs).reverse.dropWhile isPyWs).reverse

/-- Python `str.strip()`. -/
def pyStrip (s : String) : String := ⟨pyStripList s.data⟩

/-- Python `str.lstrip("#")`. -/
def lstripHash (s : String) : String := ⟨s.data.dropWhile (· = '#')⟩

/-- Substring containment on char lists: Python `needle in hay`. -/
def listContainsSub (hay needle : List Char) : Bool :=
  match hay with
  | [] => needle.isEmpty
  | _ :: tl => needle.isPrefixOf hay || listContainsSub tl needle

/-- Python `needle in hay` for strings. -/
def strContains (hay needle : String) : Bool := listContainsSub hay.data needle.data

/-- The part of `s` after the first colon: Python `s.split(":", 1)[1]`
(empty when `s` has no colon; callers in the source guard on a prefix that
contains a colon). -/
def afterFirstColon (s : String) : String :=
  ⟨(s.data.dropWhile (· ≠ ':')).drop 1⟩

/-- Python `s.startswith(pre)` (structural, so that it reduces in proofs). -/
def strStarts (s pre : String) : Bool := pre.data.isPrefixOf s.data

/-- Split a char list on newlines (Python `s.split("\n")`). -/
def splitOnNl : List Char → List (List Char)
  | [] => [[]]
  | c :: tl =>
    let r := splitOnNl tl
    if c = '\n' then [] :: r
    else
      match r with
      | h :: t => (c :: h) :: t
      | [] => [[c]]

/-- Python `s.split("\n")`. -/
def pySplitLines (s : String) : List String := (splitOnNl s.data).map (fun cs => ⟨cs⟩)

/-- Digits of a char list as a natural number; `none` if empty or non-digit. -/
def digitsToNat : List Char → Option Nat
  | [] => none
  | cs =>
    if cs.all Char.isDigit then
      some (cs.foldl (fun acc c => acc * 10 + (c.toNat - '0'.toNat)) 0)
    else none

/-- Python `int(s)` on a decimal string: strips whitespace, allows an
optional sign, otherwise digits only (`none` models `ValueError`). -/
def pyIntOfString (s : String) : Option Int :=
  match pyStripList s.data with
  | '-' :: ds => (digitsToNat ds).map (fun n => -(n : Int))
  | '+' :: ds => (digitsToNat ds).map (fun n => (n : Int))
  | ds => (digitsToNat ds).map (fun n => (n : Int))

/-- Python truthiness of an optional string (`None` and `""` are falsy). -/
def pyTruthyOS : Option String → Bool
  | none => false
  | some s => !s.isEmpty

/-- Python truthiness of an optional int (`None` and `0` are falsy). -/
def pyTruthyOI : Option Int → Bool
  | none => false
  | some n => n ≠ 0

/-- Python `a or b` for an optional string with a string default. -/
def pyOrS (a : Option String) (b : String) : String :=
  match a with
  | some s => if s.isEmpty then b else s
  | none => b

/-- Render an optional string the way a Python f-string renders the value
(`None` prints as `"None"`). -/
def fShowOS : Option String → String
  | none => "None"
  | some s => s

/-! ## JSON values -/

/-- A small JSON value type standing for the decoded bodies that
`response.json()` produces and the dict/list payloads the handlers build. -/
inductive JVal where
  | null
  | bool (b : Bool)
  | str (s : String)
  | num (n : Int)
  | arr (xs : List JVal)
  | obj (fields : List (String × JVal))
deriving Repr

/-- Python truthiness of a JSON value. -/
def pyTruthyJ : JVal → Bool
  | .null => false
  | .bool b => b
  | .str s => !s.isEmpty
  | .num n => n ≠ 0
  | .arr xs => !xs.isEmpty
  | .obj fs => !fs.isEmpty

/-- Python exception values that the embedded code can raise. -/
inductive PyExn where
  | timeout (msg : String)
  | connError (msg : String)
  | keyError (msg : String)
  | typeError (msg : String)
  | valueError (msg : String)
  | attrError (msg : String)
  | langgraphError (msg : String)
deriving Repr

/-- Python `d.get(k, default)`: defined on dicts, raises `AttributeError`
on any other value. -/
def jGetDE (j : JVal) (k : String) (d : JVal) : Except PyExn JVal :=
  match j with
  | .obj fs =>
    match fs.find? (fun kv => kv.1 = k) with
    | some kv => .ok kv.2
    | none => .ok d
  | _ => .error (.attrError ("object has no attribute " ++ "get"))

/-- Python `d.get(k)` (default `None`). -/
def jGetE (j : JVal) (k : String) : Except PyExn JVal := jGetDE j k .null

/-- Python `d[k]`: `KeyError` when the key is absent, `TypeError` when the
value is not a dict. -/
def jIndexE (j : JVal) (k : String) : Except PyExn JVal :=
  match j with
  | .obj fs =>
    match fs.find? (fun kv => kv.1 = k) with
    | some kv => .ok kv.2
    | none => .error (.keyError k)
  | _ => .error (.typeError "value is not subscriptable by string")

/-- Python `for x in v` over a decoded JSON value: lists iterate their
elements, anything else raises here (the string/char corner is unused by
the embedded code paths). -/
def jArrE (j : JVal) : Except PyExn (List JVal) :=
  match j with
  | .arr xs => .ok xs
  | _ => .error (.typeError "value is not iterable")

mutual

/-- The `repr`-style rendering Python uses for values inside containers. -/
def fShowJRepr : JVal → String
  | .null => "None"
  | .bool b => if b then "True" else "False"
  | .str s => String.singleton squoteChar ++ s ++ String.singleton squoteChar
  | .num n => toString n
  | .arr xs => "[" ++ String.intercalate ", " (fShowJReprList xs) ++ "]"
  | .obj fs => "\x7b" ++ String.intercalate ", " (fShowJReprObj fs) ++ "\x7d"

/-- Container rendering helper for lists. -/
def fShowJReprList : List JVal → List String
  | [] => []
  | x :: xs => fShowJRepr x :: fShowJReprList xs

/-- Container rendering helper for dict entries. -/
def fShowJReprObj : List (String × JVal) → List String
  | [] => []
  | (k, v) :: fs =>
    (String.singleton squoteChar ++ k ++ String.singleton squoteChar ++ ": " ++ fShowJRepr v)
      :: fShowJReprObj fs

end

/-- Render a JSON value the way a Python f-string renders it: `None`,
`True`/`False`, bare strings, decimal numbers; containers use their
`repr`-style rendering. -/
def fShowJ : JVal → String
  | .null => "None"
  | .bool b => if b then "True" else "False"
  | .str s => s
  | .num n => toString n
  | .arr xs => "[" ++ String.intercalate ", " (fShowJReprList xs) ++ "]"
  | .obj fs => "\x7b" ++ String.intercalate ", " (fShowJReprObj fs) ++ "\x7d"

/-- JSON escaping of a string for `json.dumps`. -/
def jsonEscape (s : String) : String :=
  s.data.foldl
    (fun acc c =>
      if c = dquoteChar then acc ++ "\\" ++ String.singleton dquoteChar
      else if c = '\\' then acc ++ "\\\\"
      else if c = '\n' then acc ++ "\\n"
      else if c = '\t' then acc ++ "\\t"
      else if c = '\r' then acc ++ "\\r"
      else acc.push c) ""

/-- Indentation padding used by `jDumps`. -/
def jPad (n : Nat) : String := String.mk (List.replicate n ' ')

mutual

/-- Python `json.dumps(v, indent=2)` at a given indentation level. -/
def jDumps (j : JVal) (level : Nat) : String :=
  match j with
  | .null => "null"
  | .bool b => if b then "true" else "false"
  | .str s => String.singleton dquoteChar ++ jsonEscape s ++ String.singleton dquoteChar
  | .num n => toString n
  | .arr [] => "[]"
  | .arr xs =>
    "[\n" ++ String.intercalate ",\n" (jDumpsList xs level)
      ++ "\n" ++ jPad level ++ "]"
  | .obj [] => "\x7b\x7d"
  | .obj fs =>
    "\x7b\n" ++ String.intercalate ",\n" (jDumpsObj fs level)
      ++ "\n" ++ jPad level ++ "\x7d"

/-- List helper for `jDumps`. -/
def jDumpsList : List JVal → Nat → List String
  | [], _ => []
  | x :: xs, level => (jPad (level + 2) ++ jDumps x (level + 2)) :: jDumpsList xs level

/-- Dict helper for `jDumps`. -/
def jDumpsObj : List (String × JVal) → Nat → List String
  | [], _ => []
  | (k, v) :: fs, level =>
    (jPad (level + 2) ++ String.singleton dquoteChar ++ jsonEscape k
        ++ String.singleton dquoteChar ++ ": " ++ jDumps v (level + 2))
      :: jDumpsObj fs level

end

/-! ## Regex scanners

Each Python pattern from the source is embedded as a scanner with `re`
semantics: `re.search` tries positions left to right and the first position
with a match wins; alternations are tried in written order; greedy and lazy
quantifiers backtrack. -/

/-- Case-insensitive literal match (the source patterns all use
`re.IGNORECASE`); returns the remaining characters. -/
def ciLitL : List Char → List Char → Option (List Char)
  | [], s => some s
  | _, [] => none
  | p :: ps, c :: cs => if c.toLower = p.toLower then ciLitL ps cs else none

/-- Case-insensitive literal match of a string pattern. -/
def ciLit (pat : String) (s : List Char) : Option (List Char) := ciLitL pat.data s

/-- Maximal run of characters in a class, with the remainder. -/
def takeRun (p : Char → Bool) (cs : List Char) : List Char × List Char :=
  (cs.takeWhile p, cs.dropWhile p)

/-- Leftmost-position search: `re.search` tries each start position in
order and returns the first position where the pattern matches. -/
def searchPos {α : Type} (f : List Char → Option α) : List Char → Option α
  | [] => f []
  | c :: tl => (f (c :: tl)) <|> searchPos f tl

/-- Character class `[a-zA-Z0-9_-]`. -/
def isNameChar (c : Char) : Bool := c.isAlphanum || c = '_' || c = '-'

/-- Character class `[a-zA-Z0-9._-]`. -/
def isUserChar (c : Char) : Bool := isNameChar c || c = '.'

/-- Character class `[a-zA-Z0-9_ slash -]`. -/
def isBranchChar (c : Char) : Bool := isNameChar c || c = '/'

/-- Pattern fragment `<kw>\s+(<cls>+)` at one position: a keyword, at least
one whitespace, then a captured nonempty class run. -/
def kwWsCapture (kw : String) (cls : Char → Bool) (s : List Char) : Option String :=
  (ciLit kw s).bind fun r1 =>
    let (w, r2) := takeRun isPyWs r1
    if w.isEmpty then none
    else
      let (nm, _) := takeRun cls r2
      if nm.isEmpty then none else some ⟨nm⟩

/-! ### `_extract_repo_name` patterns -/

/-- Pattern 1: `(?:repo|repository|project)\s+([a-zA-Z0-9_-]+)` at one
position (ordered alternation: `repo` is tried before `repository`). -/
def repoPat1At (s : List Char) : Option String :=
  kwWsCapture "repo" isNameChar s <|> kwWsCapture "repository" isNameChar s
    <|> kwWsCapture "project" isNameChar s

/-- Shared tail of pattern 2 after the trigger word:
`\s+(?:the\s+)?([a-zA-Z0-9_-]+)(?:\s+repo|\s+repository|\s+project)?`; the
optional `the\s+` is taken greedily and given back if no name follows, and
the trailing optional group never constrains the capture. -/
def repoPat2Core (r1 : List Char) : Option String :=
  let (w, r2) := takeRun isPyWs r1
  if w.isEmpty then none
  else
    let withThe :=
      (ciLit "the" r2).bind fun r3 =>
        let (w2, r4) := takeRun isPyWs r3
        if w2.isEmpty then none
        else
          let (nm, _) := takeRun isNameChar r4
          if nm.isEmpty then none else some (⟨nm⟩ : String)
    match withThe with
    | some nm => some nm
    | none =>
      let (nm, _) := takeRun isNameChar r2
      if nm.isEmpty then none else some ⟨nm⟩

/-- Pattern 2: `(?:in|to|for)\s+(?:the\s+)?([a-zA-Z0-9_-]+)(?:\s+repo|\s+repository|\s+project)?`. -/
def repoPat2At (s : List Char) : Option String :=
  ((ciLit "in" s).bind repoPat2Core) <|> ((ciLit "to" s).bind repoPat2Core)
    <|> ((ciLit "for" s).bind repoPat2Core)

/-- Pattern 3: `([a-zA-Z0-9_-]+)(?:\s+repo|\s+repository|\s+project)`. -/
def repoPat3At (s : List Char) : Option String :=
  let (nm, r) := takeRun isNameChar s
  if nm.isEmpty then none
  else
    let (w, r2) := takeRun isPyWs r
    if w.isEmpty then none
    else if (ciLit "repo" r2).isSome || (ciLit "repository" r2).isSome
        || (ciLit "project" r2).isSome then some ⟨nm⟩
    else none

/-- Source `_extract_repo_name`: the three patterns are tried in order over
the whole query; the first one that matches anywhere wins. -/
def extract_repo_name (query : String) : Option String :=
  searchPos repoPat1At query.data <|> searchPos repoPat2At query.data
    <|> searchPos repoPat3At query.data

/-! ### `_extract_issue_number` patterns -/

/-- Captured `(\d+)`: a nonempty maximal digit run, as a number. -/
def digitCapture (cs : List Char) : Option Nat :=
  digitsToNat (takeRun Char.isDigit cs).1

/-- Pattern fragment `<kw>\s+#?(\d+)` at one position. -/
def numKwHashAt (kw : String) (s : List Char) : Option Nat :=
  (ciLit kw s).bind fun r1 =>
    let (w, r2) := takeRun isPyWs r1
    if w.isEmpty then none
    else digitCapture (match r2 with | '#' :: tl => tl | _ => r2)

/-- Pattern fragment `<kw>\s+(\d+)` at one position. -/
def numKwAt (kw : String) (s : List Char) : Option Nat :=
  (ciLit kw s).bind fun r1 =>
    let (w, r2) := takeRun isPyWs r1
    if w.isEmpty then none else digitCapture r2

/-- Pattern 1: `(?:issue|bug|ticket)\s+#?(\d+)`. -/
def numPat1At (s : List Char) : Option Nat :=
  numKwHashAt "issue" s <|> numKwHashAt "bug" s <|> numKwHashAt "ticket" s

/-- Pattern 2: `#(\d+)`. -/
def numPat2At (s : List Char) : Option Nat :=
  match s with
  | '#' :: tl => digitCapture tl
  | _ => none

/-- Pattern 3: `(?:number|num)\s+(\d+)`. -/
def numPat3At (s : List Char) : Option Nat :=
  numKwAt "number" s <|> numKwAt "num" s

/-- Source `_extract_issue_number`. -/
def extract_issue_number (query : String) : Option Int :=
  (searchPos numPat1At query.data <|> searchPos numPat2At query.data
    <|> searchPos numPat3At query.data).map Int.ofNat

/-! ### `_extract_issue_content` patterns -/

/-- The tail `(?:\s+in\s+|\s*$)` of the issue-content patterns (`$` matches
at the end of the string or just before a final newline; a final newline is
itself whitespace, so `\s*$` holds exactly on all-whitespace remainders). -/
def contentTailOk (cs : List Char) : Bool :=
  (let (w, r) := takeRun isPyWs cs
   !w.isEmpty &&
     (match ciLit "in" r with
      | some r2 => (match r2 with | c :: _ => isPyWs c | [] => false)
      | none => false))
  || cs.all isPyWs

/-- Lazy `(.+?)` followed by a tail condition: grows the capture one
character at a time (never across a newline, since `.` excludes `\n`) and
stops at the first length where the tail matches. -/
def lazyDotScan (tailOk : List Char → Bool) : List Char → List Char → Option (List Char)
  | [], _ => none
  | c :: rest, acc =>
    if c = '\n' then none
    else
      let acc2 := acc ++ [c]
      if tailOk rest then some acc2 else lazyDotScan tailOk rest acc2

/-- Greedy `\s+` before a lazy capture: the first argument is the reversed
maximal whitespace run; consuming all of it is tried first, then the run is
given back one character at a time (at least one must stay consumed). -/
def wsPlusLazy (tailOk : List Char → Bool) : List Char → List Char → Option (List Char)
  | [], _ => none
  | c :: wrev, rest => (lazyDotScan tailOk rest []) <|> wsPlusLazy tailOk wrev (c :: rest)

/-- Greedy `\s*` before a lazy capture: like `wsPlusLazy` but consuming
zero whitespace characters is also allowed as the last resort. -/
def wsStarLazy (tailOk : List Char → Bool) : List Char → List Char → Option (List Char)
  | [], rest => lazyDotScan tailOk rest []
  | c :: wrev, rest => (lazyDotScan tailOk rest []) <|> wsStarLazy tailOk wrev (c :: rest)

/-- Pattern `<kw>\s+(.+?)(?:\s+in\s+|\s*$)` at one position (used for
`about`, `that`, `with`). -/
def contentKwAt (kw : String) (s : List Char) : Option (List Char) :=
  (ciLit kw s).bind fun r1 =>
    let (w, r2) := takeRun isPyWs r1
    if w.isEmpty then none else wsPlusLazy contentTailOk w.reverse r2

/-- Pattern `:\s*(.+?)(?:\s+in\s+|\s*$)` at one position. -/
def contentColonAt (s : List Char) : Option (List Char) :=
  match s with
  | ':' :: r1 =>
    let (w, r2) := takeRun isPyWs r1
    wsStarLazy contentTailOk w.reverse r2
  | _ => none

/-- The raw content captured by the first matching issue-content pattern,
stripped (`match.group(1).strip()`), in the source's pattern order:
`about`, colon, `that`, `with`. -/
def issueContentRaw (query : String) : Option String :=
  ((searchPos (contentKwAt "about") query.data)
      <|> searchPos contentColonAt query.data
      <|> searchPos (contentKwAt "that") query.data
      <|> searchPos (contentKwAt "with") query.data).map
    fun cs => pyStrip ⟨cs⟩

/-- The `{title, body}` pair built by `_extract_issue_content`. -/
structure IssueContent where
  title : String
  body : String
deriving Repr

/-- Source `_extract_issue_content`: on a match, the title is the content
truncated to 50 characters with `"..."` appended when it exceeds 50
characters, and the body wraps the full content; `none` when no pattern
matches. -/
def extract_issue_content (query : String) : Option IssueContent :=
  match issueContentRaw query with
  | some content =>
    let title := if content.length > 50 then content.take 50 ++ "..." else content
    let body := "Issue details: " ++ content ++ "\n\nReported via DevCascade automation."
    some ⟨title, body⟩
  | none => none

/-! ### `_extract_source_branch` and the two `_extract_branch_name` definitions -/

/-- Pattern `based\s+on\s+([a-zA-Z0-9_ slash -]+)` at one position. -/
def basedOnPatAt (s : List Char) : Option String :=
  (ciLit "based" s).bind fun r1 =>
    let (w, r2) := takeRun isPyWs r1
    if w.isEmpty then none else kwWsCapture "on" isBranchChar r2

/-- Source `_extract_source_branch`. -/
def extract_source_branch (query : String) : Option String :=
  searchPos (kwWsCapture "from" isBranchChar) query.data
    <|> searchPos basedOnPatAt query.data
    <|> searchPos (kwWsCapture "off" isBranchChar) query.data

/-- Pattern `on\s+([a-zA-Z0-9_ slash -]+)\s+branch` at one position. -/
def branchOnPatAt (s : List Char) : Option String :=
  (ciLit "on" s).bind fun r1 =>
    let (w, r2) := takeRun isPyWs r1
    if w.isEmpty then none
    else
      let (nm, r3) := takeRun isBranchChar r2
      if nm.isEmpty then none
      else
        let (w2, r4) := takeRun isPyWs r3
        if w2.isEmpty then none
        else if (ciLit "branch" r4).isSome then some ⟨nm⟩ else none

/-- Pattern `switch\s+to\s+([a-zA-Z0-9_ slash -]+)` at one position. -/
def switchToPatAt (s : List Char) : Option String :=
  (ciLit "switch" s).bind fun r1 =>
    let (w, r2) := takeRun isPyWs r1
    if w.isEmpty then none else kwWsCapture "to" isBranchChar r2

/-- The FIRST `_extract_branch_name` definition in the source (lines
675-691).  It is shadowed by the second definition of the same name further
down the class body and is therefore never bound on the processor. -/
def extract_branch_name_shadowed (query : String) : Option String :=
  searchPos (kwWsCapture "branch" isBranchChar) query.data
    <|> searchPos branchOnPatAt query.data
    <|> searchPos switchToPatAt query.data
    <|> searchPos (kwWsCapture "checkout" isBranchChar) query.data

/-- The SECOND `_extract_branch_name` definition (lines 710-713), the one
actually bound on the processor.  Its body only assigns a local `patterns`
list (`branch\s+([a-zA-Z0-9_ slash -]+)`, `on\s+([a-zA-Z0-9_ slash -]+)\s+branch`,
`from\s+([a-zA-Z0-9_ slash -]+)`) and has no return statement, so Python returns
`None` for every input. -/
def extract_branch_name (_query : String) : Option String := none

/-! ### `_extract_slack_target` -/

/-- One history of a quote character (the class `["\']`). -/
def isQuoteChar (c : Char) : Bool := c = dquoteChar || c = squoteChar

/-- Shared tail of the user pattern after the trigger:
`\s*@?([a-zA-Z0-9._-]+)`. -/
def slackUserCore (r1 : List Char) : Option String :=
  let (_, r2) := takeRun isPyWs r1
  let r3 := match r2 with | '@' :: tl => tl | _ => r2
  let (nm, _) := takeRun isUserChar r3
  if nm.isEmpty then none else some ⟨nm⟩

/-- Pattern `(?:to|@)\s*@?([a-zA-Z0-9._-]+)` at one position. -/
def slackUserAt (s : List Char) : Option String :=
  ((ciLit "to" s).bind slackUserCore) <|> ((ciLit "@" s).bind slackUserCore)

/-- Shared tail of the channel pattern after the trigger:
`\s+#?([a-zA-Z0-9_-]+)`. -/
def slackChannelCore (r1 : List Char) : Option String :=
  let (w, r2) := takeRun isPyWs r1
  if w.isEmpty then none
  else
    let r3 := match r2 with | '#' :: tl => tl | _ => r2
    let (nm, _) := takeRun isNameChar r3
    if nm.isEmpty then none else some ⟨nm⟩

/-- Pattern `(?:channel|in)\s+#?([a-zA-Z0-9_-]+)` at one position. -/
def slackChannelAt (s : List Char) : Option String :=
  ((ciLit "channel" s).bind slackChannelCore) <|> ((ciLit "in" s).bind slackChannelCore)

/-- Pattern `["\']([^"\']+)["\']` at one position. -/
def slackQuoteAt (s : List Char) : Option String :=
  match s with
  | c :: tl =>
    if isQuoteChar c then
      let (content, r) := takeRun (fun d => !isQuoteChar d) tl
      if content.isEmpty then none
      else
        match r with
        | d :: _ => if isQuoteChar d then some ⟨content⟩ else none
        | [] => none
    else none
  | [] => none

/-- The tail `(?:\s+(?:to|@|in|channel)|$)` of the colon message pattern. -/
def slackMsgTailOk (cs : List Char) : Bool :=
  (let (w, r) := takeRun isPyWs cs
   !w.isEmpty &&
     ((ciLit "to" r).isSome || (ciLit "@" r).isSome || (ciLit "in" r).isSome
        || (ciLit "channel" r).isSome))
  || cs.isEmpty || cs = ['\n']

/-- Pattern `:\s*(.+?)(?:\s+(?:to|@|in|channel)|$)` at one position. -/
def slackColonMsgAt (s : List Char) : Option String :=
  match s with
  | ':' :: r1 =>
    let (w, r2) := takeRun isPyWs r1
    (wsStarLazy slackMsgTailOk w.reverse r2).map fun cs => (⟨cs⟩ : String)
  | _ => none

/-- First `re.sub` of the cleaned-message path:
`^(?:send|message|notify|tell|inform)\s+(?:a\s+)?(?:slack\s+)?(?:message\s*)?:?\s*`
is anchored at the start, so at most the one leading command prefix is
removed. -/
def slackSub1 (cs : List Char) : List Char :=
  let verbTry := fun (kw : String) =>
    (ciLit kw cs).bind fun r1 =>
      let (w, r2) := takeRun isPyWs r1
      if w.isEmpty then none else some r2
  match verbTry "send" <|> verbTry "message" <|> verbTry "notify" <|> verbTry "tell"
      <|> verbTry "inform" with
  | none => cs
  | some r2 =>
    let optKwWs := fun (kw : String) (r : List Char) =>
      match (ciLit kw r).bind (fun ra =>
          let (w, rb) := takeRun isPyWs ra
          if w.isEmpty then none else some rb) with
      | some rb => rb
      | none => r
    let r3 := optKwWs "a" r2
    let r4 := optKwWs "slack" r3
    let r5 := match ciLit "message" r4 with
              | some ra => (takeRun isPyWs ra).2
              | none => r4
    let r6 := match r5 with | ':' :: tl => tl | _ => r5
    (takeRun isPyWs r6).2

/-- A match of `.+$` covering `rest`: at least one leading non-newline
character, and the maximal non-newline run reaches the end of the string
or just before a final newline (the only positions where `$` can match);
returns the leftover the match does not cover. -/
def dotPlusEndAt (rest : List Char) : Option (List Char) :=
  let (p, rem) := takeRun (fun c => c ≠ '\n') rest
  if p.isEmpty then none
  else if rem.isEmpty then some ([] : List Char)
  else if rem = ['\n'] then some ['\n']
  else none

/-- Greedy `\s+` followed by `.+$`: the first argument is the reversed
maximal whitespace run after the keyword.  Python tries the maximal `\s+`
first and then cedes whitespace characters back to `.+` one at a time (at
least one must stay consumed), since `.` also matches a space — e.g. in
`"msg to  "` the second space is matched by `.+` and the clause is
stripped. -/
def dotPlusEndBt : List Char → List Char → Option (List Char)
  | [], _ => none
  | c :: wrev, rest => (dotPlusEndAt rest) <|> dotPlusEndBt wrev (c :: rest)

/-- A match of `\s+(?:to|@|in|channel)\s+.+$` at one position: since `.+$`
runs to the end of the string (or to just before a final newline), a match
swallows everything from this position on; the returned value is the
leftover the replacement keeps (empty, or the final newline). -/
def slackSub2TailAt (cs : List Char) : Option (List Char) :=
  let (w1, r1) := takeRun isPyWs cs
  if w1.isEmpty then none
  else
    let kwTail := fun (kw : String) =>
      (ciLit kw r1).bind fun r2 =>
        let (w2, r3) := takeRun isPyWs r2
        if w2.isEmpty then none else dotPlusEndBt w2.reverse r3
    kwTail "to" <|> kwTail "@" <|> kwTail "in" <|> kwTail "channel"

/-- Second `re.sub` of the cleaned-message path: removes the leftmost
trailing target clause `\s+(?:to|@|in|channel)\s+.+$`. -/
def slackSub2 : List Char → List Char
  | [] => []
  | c :: tl =>
    match slackSub2TailAt (c :: tl) with
    | some leftover => leftover
    | none => c :: slackSub2 tl

/-- The `{user, channel, message}` result of `_extract_slack_target`. -/
structure SlackTarget where
  user : Option String
  channel : Option String
  message : Option String
deriving Repr

/-- Source `_extract_slack_target`: an `@`/`to` user mention, a
`channel`/`in` channel, and a message body preferring quoted text, then
text after a colon, then the query with the command prefix and trailing
target clause stripped (`None` when nothing remains). -/
def extract_slack_target (query : String) : SlackTarget :=
  let user := searchPos slackUserAt query.data
  let channel := searchPos slackChannelAt query.data
  let message :=
    match searchPos slackQuoteAt query.data with
    | some m => some (pyStrip m)
    | none =>
      match searchPos slackColonMsgAt query.data with
      | some m => some (pyStrip m)
      | none =>
        let cleaned : String := ⟨slackSub2 (slackSub1 query.data)⟩
        if (pyStrip cleaned).isEmpty then none else some (pyStrip cleaned)
  ⟨user, channel, message⟩

/-! ## Classifier -/

/-- The partial state update a classifier run produces.  In the source this
is a plain dict; keys the dict omits leave the corresponding state fields
at their initial `None`, so an omitted key and an explicit `None` value
coincide here (every state field written by the classifier starts as
`None` in `process_query`'s initial state). -/
structure ClassDelta where
  action_type : String
  repo_name : Option String := none
  issue_number : Option Int := none
  comment_body : Option String := none
  issue_title : Option String := none
  issue_body : Option String := none
  error_message : Option String := none
  branch_name : Option String := none
  source_branch : Option String := none
  needs_clarification : Bool := false
deriving Repr

/-- One line of `_parse_structured_response`'s loop: strip the line, then
the `elif` chain on the known `KEY:` markers; unrecognized lines leave the
parse state unchanged. -/
def parseLine (parsed : ClassDelta) (line0 : String) : ClassDelta :=
  let line := pyStrip line0
  if strStarts line "ACTION:" then
    { parsed with action_type := pyStrip (afterFirstColon line) }
  else if strStarts line "REPO:" then
    let repo := pyStrip (afterFirstColon line)
    { parsed with repo_name := if pyLower repo ≠ "null" then some repo else none }
  else if strStarts line "ISSUE_NUMBER:" then
    let issue_num := pyStrip (afterFirstColon line)
    if pyLower issue_num ≠ "null" then
      match pyIntOfString issue_num with
      | some n => { parsed with issue_number := some n }
      | none => parsed
    else parsed
  else if strStarts line "ISSUE_TITLE:" then
    let title := pyStrip (afterFirstColon line)
    { parsed with issue_title := if pyLower title ≠ "null" then some title else none }
  else if strStarts line "ISSUE_BODY:" then
    let body := pyStrip (afterFirstColon line)
    { parsed with issue_body := if pyLower body ≠ "null" then some body else none }
  else if strStarts line "BRANCH_NAME:" then
    let branch := pyStrip (afterFirstColon line)
    { parsed with branch_name := if pyLower branch ≠ "null" then some branch else none }
  else if strStarts line "SOURCE_BRANCH:" then
    let source := pyStrip (afterFirstColon line)
    { parsed with source_branch := if pyLower source ≠ "null" then some source else none }
  else if strStarts line "COMMENT:" then
    let comment := pyStrip (afterFirstColon line)
    { parsed with comment_body := if pyLower comment ≠ "null" then some comment else none }
  else parsed

/-- Source `_parse_structured_response`: the reply is split on newlines and
folded through the line parser, starting from the defaults (in particular
`action_type = "unhandled"`).  An `ACTION:` value is stored verbatim; it is
NOT checked against the intent vocabulary. -/
def parse_structured_response (response_text : String) : ClassDelta :=
  (pySplitLines response_text).foldl parseLine { action_type := "unhandled" }

/-- Keyword list used by the fallback greeting check. -/
def greeting_patterns : List String :=
  ["hello", "hi", "hey", "howdy", "greetings", "good morning", "good afternoon",
   "good evening"]

/-- Keyword list used by the fallback general-question check. -/
def question_patterns : List String :=
  ["how are you", "what can you do", "help", "what is", "tell me about", "explain"]

/-- Keyword lists of the fallback intent checks. -/
def create_patterns : List String := ["create", "raise", "open", "make", "new", "add"]

/-- Issue keywords. -/
def issue_patterns : List String := ["issue", "bug", "ticket", "problem", "feature"]

/-- List keywords. -/
def list_patterns : List String := ["list", "show", "see", "view", "display", "get all", "what are"]

/-- Slack keywords. -/
def slack_patterns : List String := ["send", "message", "notify", "tell", "slack", "inform"]

/-- Branch keywords. -/
def branch_patterns : List String := ["branch", "branches"]

/-- List-branch keywords. -/
def list_branch_patterns : List String := ["list", "show", "see", "view", "display", "get all", "what"]

/-- Create-branch keywords. -/
def create_branch_patterns : List String := ["create", "make", "new", "add"]

/-- Python `any(p in q for p in pats)`: substring containment of any
pattern. -/
def anyIn (pats : List String) (q : String) : Bool := pats.any (fun p => strContains q p)

/-- Source `_fallback_classification`: keyword heuristics over
`user_query.lower().strip()`, checked in the source's order.  Every branch
returns a dict whose `action_type` is a fixed literal; when the branch
keyword block matches but none of its inner cases fire, control falls
through to the final general-response return, exactly as in the source. -/
def fallback_classification (user_query : String) : ClassDelta :=
  let query_lower := pyStrip (pyLower user_query)
  if anyIn greeting_patterns query_lower then
    { action_type := "general_response" }
  else if anyIn question_patterns query_lower then
    { action_type := "general_response" }
  else
    let repo_name := extract_repo_name user_query
    let issue_number := extract_issue_number user_query
    if anyIn create_patterns query_lower && anyIn issue_patterns query_lower then
      match extract_issue_content user_query with
      | none =>
        { action_type := "needs_clarification", repo_name := repo_name,
          needs_clarification := true }
      | some issue_content =>
        { action_type := "github_create_issue", repo_name := repo_name,
          issue_title := some issue_content.title, issue_body := some issue_content.body }
    else if anyIn list_patterns query_lower && anyIn issue_patterns query_lower then
      { action_type := "github_list_issues", repo_name := repo_name }
    else if pyTruthyOI issue_number &&
        (strContains query_lower "show" || strContains query_lower "get"
          || strContains query_lower "details") then
      { action_type := "github_get_issue", repo_name := repo_name,
        issue_number := issue_number }
    else if pyTruthyOI issue_number &&
        (strContains query_lower "comment" || strContains query_lower "reply") then
      { action_type := "github_comment_issue", repo_name := repo_name,
        issue_number := issue_number, comment_body := some user_query }
    else if anyIn slack_patterns query_lower then
      { action_type := "slack_send_message" }
    else if anyIn branch_patterns query_lower then
      let branch_name := extract_branch_name user_query
      if anyIn create_branch_patterns query_lower then
        { action_type := "github_create_branch", repo_name := repo_name,
          branch_name := branch_name,
          source_branch := some (pyOrS (extract_source_branch user_query) "main") }
      else if anyIn list_branch_patterns query_lower then
        { action_type := "github_list_branches", repo_name := repo_name }
      else if pyTruthyOS branch_name then
        { action_type := "github_get_branch", repo_name := repo_name,
          branch_name := branch_name }
      else
        { action_type := "general_response", repo_name := repo_name,
          issue_number := issue_number }
    else
      { action_type := "general_response", repo_name := repo_name,
        issue_number := issue_number }

/-- Source `_classify_and_extract_parameters_node`: the model reply is an
oracle (`none` models the `generate_content` call raising).  The whole body
sits in a `try` whose handler runs the fallback, and a parsed
`action_type` equal to the literal `"unhandled"` also triggers the
fallback; any other parsed string is kept as is. -/
def classify_and_extract (gemini : Option String) (user_query : String) : ClassDelta :=
  match gemini with
  | none => fallback_classification user_query
  | some reply =>
    let response_text := pyStrip reply
    let parsed := parse_structured_response response_text
    if parsed.action_type = "unhandled" then fallback_classification user_query
    else parsed

/-! ## HTTP world and call log -/

/-- One outbound HTTP request as attempted by the code (method, URL, and
the JSON payload for POSTs). -/
structure Call where
  method : String
  url : String
  payload : Option JVal := none
deriving Repr

/-- The outcome the environment gives one HTTP request: either the client
raises (connection error, timeout, ...) or a response arrives with a
status code, a decoded JSON body and a raw text body. -/
inductive HttpOutcome where
  | raises (e : PyExn)
  | resp (status : Nat) (body : JVal) (text : String)
deriving Repr

/-- The GitHub side of the environment: an outcome for every
(method, URL) pair. -/
abbrev GithubWorld := String → String → HttpOutcome

/-- The Slack side of the environment: one outcome per endpoint the helper
can hit. -/
structure SlackWorld where
  usersList : HttpOutcome
  conversationsOpen : HttpOutcome
  channelsPublic : HttpOutcome
  channelsPrivate : HttpOutcome
  postMessage : HttpOutcome

/-- A computation that makes HTTP calls: it threads the list of attempted
calls and can end in a Python exception. -/
def CallM (α : Type) := List Call → (Except PyExn α) × List Call

/-- Monad unit of `CallM`. -/
def CallM.pure {α : Type} (a : α) : CallM α := fun cs => (.ok a, cs)

/-- Monad bind of `CallM`: an exception short-circuits but keeps the calls
already attempted. -/
def CallM.bind {α β : Type} (m : CallM α) (f : α → CallM β) : CallM β := fun cs =>
  match m cs with
  | (.ok a, cs2) => f a cs2
  | (.error e, cs2) => (.error e, cs2)

instance : Monad CallM where
  pure := CallM.pure
  bind := CallM.bind

/-- Record one attempted call. -/
def emitCall (c : Call) : CallM Unit := fun cs => (.ok (), cs ++ [c])

/-- Raise a Python exception. -/
def pyRaise {α : Type} (e : PyExn) : CallM α := fun cs => (.error e, cs)

/-- Lift a pure fallible step. -/
def liftE {α : Type} (x : Except PyExn α) : CallM α := fun cs => (x, cs)

/-- Run from an empty call log. -/
def runCallM {α : Type} (m : CallM α) : Except PyExn α × List Call := m []

/-- Perform one request against a GitHub world: the attempt is logged, and
a client-level exception propagates (the source wraps none of its
`requests` calls in try/except). -/
def doRequest (w : GithubWorld) (method url : String) (payload : Option JVal) :
    CallM (Nat × JVal × String) := do
  emitCall ⟨method, url, payload⟩
  match w method url with
  | .raises e => pyRaise e
  | .resp s b t => pure (s, b, t)

/-- Perform one request against a fixed Slack endpoint outcome. -/
def doSlackCall (outcome : HttpOutcome) (method url : String) (payload : Option JVal) :
    CallM (Nat × JVal × String) := do
  emitCall ⟨method, url, payload⟩
  match outcome with
  | .raises e => pyRaise e
  | .resp s b t => pure (s, b, t)

/-- Static credential bundle held by the processor. -/
structure Processor where
  github_token : String
  slack_token : String
  github_owner : String
deriving Repr

/-- Source `WorkflowProcessor.__init__`: raises `ValueError` when the
Gemini key is falsy, otherwise stores the credential bundle. -/
def WorkflowProcessor_init (gemini_api_key github_token slack_token github_owner : String) :
    Except PyExn Processor :=
  if gemini_api_key.isEmpty then .error (.valueError "Gemini API key is required.")
  else .ok ⟨github_token, slack_token, github_owner⟩

/-! ## GitHub API helpers -/

/-- The `{"error": ..., "details": ...}` dict built for non-2xx GitHub
responses. -/
def ghErr (status : Nat) (text : String) : JVal :=
  .obj [("error", .str ("GitHub API Error: " ++ toString status)), ("details", .str text)]

/-- URL base for a repository. -/
def ghRepoUrl (p : Processor) (repo_name suffix : String) : String :=
  "https://api.github.com/repos/" ++ p.github_owner ++ "/" ++ repo_name ++ suffix

/-- Source `_call_list_github_branches`. -/
def call_list_github_branches (w : GithubWorld) (p : Processor) (repo_name : String) :
    CallM JVal := do
  if repo_name.isEmpty then
    pure (.obj [("error", .str "Repository name not provided")])
  else
    let url := ghRepoUrl p repo_name "/branches"
    let (status, body, text) ← doRequest w "GET" url none
    if status ≠ 200 then pure (ghErr status text) else pure body

/-- Source `_call_get_github_branch`. -/
def call_get_github_branch (w : GithubWorld) (p : Processor) (repo_name branch_name : String) :
    CallM JVal := do
  if repo_name.isEmpty || branch_name.isEmpty then
    pure (.obj [("error", .str "Repository name or branch name not provided")])
  else
    let url := ghRepoUrl p repo_name ("/branches/" ++ branch_name)
    let (status, body, text) ← doRequest w "GET" url none
    if status ≠ 200 then pure (ghErr status text) else pure body

/-- Source `_call_create_github_branch`: first fetch the source branch
head (`GET /git/refs/heads/{source}`), fail with an error naming the
source branch on a non-200, otherwise read `["object"]["sha"]` from the
body (an absent key raises, uncaught) and `POST /git/refs` with the new
ref pointing at that SHA. -/
def call_create_github_branch (w : GithubWorld) (p : Processor)
    (repo_name branch_name source_branch : String) : CallM JVal := do
  if repo_name.isEmpty || branch_name.isEmpty then
    pure (.obj [("error", .str "Repository name or branch name not provided")])
  else
    let source_url := ghRepoUrl p repo_name ("/git/refs/heads/" ++ source_branch)
    let (status, body, text) ← doRequest w "GET" source_url none
    if status ≠ 200 then
      pure (.obj [("error", .str ("Could not find source branch '" ++ source_branch ++ "'")),
                  ("details", .str text)])
    else do
      let objv ← liftE (jIndexE body "object")
      let source_sha ← liftE (jIndexE objv "sha")
      let create_url := ghRepoUrl p repo_name "/git/refs"
      let create_data : JVal := .obj [("ref", .str ("refs/heads/" ++ branch_name)), ("sha", source_sha)]
      let (status2, body2, text2) ← doRequest w "POST" create_url (some create_data)
      if status2 ≠ 200 && status2 ≠ 201 then pure (ghErr status2 text2) else pure body2

/-- Source `_call_create_github_issue`. -/
def call_create_github_issue (w : GithubWorld) (p : Processor)
    (repo_name title body : String) : CallM JVal := do
  if repo_name.isEmpty then
    pure (.obj [("error", .str "Repository name not found in query")])
  else if title.isEmpty then
    pure (.obj [("error", .str "Issue title not provided")])
  else
    let url := ghRepoUrl p repo_name "/issues"
    let data : JVal := .obj [("title", .str title),
      ("body", .str (if body.isEmpty then "Issue created via AutoFlowBot based on user query." else body))]
    let (status, rbody, text) ← doRequest w "POST" url (some data)
    if status ≠ 200 && status ≠ 201 then pure (ghErr status text) else pure rbody

/-- Source `_call_list_github_issues`. -/
def call_list_github_issues (w : GithubWorld) (p : Processor) (repo_name : String) :
    CallM JVal := do
  if repo_name.isEmpty then
    pure (.obj [("error", .str "Repository name not provided")])
  else
    let url := ghRepoUrl p repo_name "/issues"
    let (status, body, text) ← doRequest w "GET" url none
    if status ≠ 200 then pure (ghErr status text) else pure body

/-- Source `_call_get_github_issue` (`if not repo_name or not issue_number`:
an issue number of `0` is falsy in Python). -/
def call_get_github_issue (w : GithubWorld) (p : Processor)
    (repo_name : String) (issue_number : Int) : CallM JVal := do
  if repo_name.isEmpty || issue_number = 0 then
    pure (.obj [("error", .str "Repository name or issue number not provided")])
  else
    let url := ghRepoUrl p repo_name ("/issues/" ++ toString issue_number)
    let (status, body, text) ← doRequest w "GET" url none
    if status ≠ 200 then pure (ghErr status text) else pure body

/-- Source `_call_comment_on_github_issue`. -/
def call_comment_on_github_issue (w : GithubWorld) (p : Processor)
    (repo_name : String) (issue_number : Int) (comment_body : String) : CallM JVal := do
  if repo_name.isEmpty || issue_number = 0 || comment_body.isEmpty then
    pure (.obj [("error", .str "Repository name, issue number, or comment body not provided")])
  else
    let url := ghRepoUrl p repo_name ("/issues/" ++ toString issue_number ++ "/comments")
    let data : JVal := .obj [("body", .str comment_body)]
    let (status, rbody, text) ← doRequest w "POST" url (some data)
    if status ≠ 200 && status ≠ 201 then pure (ghErr status text) else pure rbody

/-! ## Slack send helper -/

/-- Python `j == s` for a JSON value against a string (equal only when the
value is that string). -/
def jEqStr (j : JVal) (s : String) : Bool :=
  match j with
  | .str t => t = s
  | _ => false

/-- The `{"ok": False, "error": msg}` dicts the Slack helper builds. -/
def okFalse (msg : String) : JVal := .obj [("ok", .bool false), ("error", .str msg)]

/-- The JSON value sent for an optional string (Python serializes `None`
as JSON `null`). -/
def jOfOptStr : Option String → JVal
  | none => .null
  | some s => .str s

/-- The user-resolution loop of `_call_send_slack_message`: first member
whose `name`, `profile.display_name` or `real_name` equals the target
(short-circuit order as in the source) yields its `id`; otherwise `None`. -/
def findUserId (ms : List JVal) (u : String) : Except PyExn JVal :=
  match ms with
  | [] => .ok .null
  | m :: rest => do
    let name ← jGetE m "name"
    if jEqStr name u then jGetE m "id"
    else do
      let profile ← jGetDE m "profile" (.obj [])
      let disp ← jGetE profile "display_name"
      if jEqStr disp u then jGetE m "id"
      else do
        let real ← jGetE m "real_name"
        if jEqStr real u then jGetE m "id" else findUserId rest u

/-- The channel-resolution loop of `_call_send_slack_message`. -/
def findChannelId (chs : List JVal) (name : String) : Except PyExn JVal :=
  match chs with
  | [] => .ok .null
  | ch :: rest => do
    let n ← jGetE ch "name"
    if jEqStr n name then jGetE ch "id" else findChannelId rest name

/-- The final send step shared by both branches of the helper: build
`{"channel": channel_id, "text": message}` (note: the message is sent as
is, `None` included — there is no guard on a missing message body) and
`POST chat.postMessage`. -/
def slackSendPhase (w : SlackWorld) (message : Option String) (channel_id : JVal) :
    CallM JVal := do
  let message_data : JVal := .obj [("channel", channel_id), ("text", jOfOptStr message)]
  let (status, result, _) ←
    doSlackCall w.postMessage "POST" "https://slack.com/api/chat.postMessage" (some message_data)
  if status ≠ 200 then
    pure (okFalse ("HTTP error " ++ toString status ++ " when sending message"))
  else do
    let okv ← liftE (jGetE result "ok")
    if !pyTruthyJ okv then do
      let errv ← liftE (jGetDE result "error" (.str "Unknown error"))
      if jEqStr errv "invalid_auth" then pure (okFalse "Invalid Slack token")
      else if jEqStr errv "channel_not_found" then
        pure (okFalse "Channel not found or bot not added to channel")
      else if jEqStr errv "not_in_channel" then
        pure (okFalse "Bot is not a member of the channel")
      else pure (okFalse ("Could not send message: " ++ fShowJ errv))
    else pure result

/-- The body of `_call_send_slack_message` inside its `try` block. -/
def slackBody (w : SlackWorld) (message channel user : Option String) : CallM JVal := do
  if pyTruthyOS user then
    let u := match user with | some s => s | none => ""
    let (status, users_data, _) ←
      doSlackCall w.usersList "GET" "https://slack.com/api/users.list" none
    if status ≠ 200 then
      pure (okFalse ("HTTP error " ++ toString status ++ " when listing users"))
    else do
      let okv ← liftE (jGetE users_data "ok")
      if !pyTruthyJ okv then do
        let errv ← liftE (jGetDE users_data "error" (.str "Unknown error"))
        if jEqStr errv "invalid_auth" then pure (okFalse "Invalid Slack token")
        else pure (okFalse ("Could not list users: " ++ fShowJ errv))
      else do
        let members ← liftE (do let m ← jGetDE users_data "members" (.arr []); jArrE m)
        let user_id ← liftE (findUserId members u)
        if !pyTruthyJ user_id then
          pure (okFalse ("User '" ++ u ++ "' not found"))
        else do
          let (status2, dm_result, _) ←
            doSlackCall w.conversationsOpen "POST" "https://slack.com/api/conversations.open"
              (some (.obj [("users", user_id)]))
          if status2 ≠ 200 then
            pure (okFalse ("HTTP error " ++ toString status2 ++ " when opening DM"))
          else do
            let okv2 ← liftE (jGetE dm_result "ok")
            if !pyTruthyJ okv2 then do
              let errv2 ← liftE (jGetDE dm_result "error" (.str "Unknown error"))
              pure (okFalse ("Could not open DM: " ++ fShowJ errv2))
            else do
              let chObj ← liftE (jGetDE dm_result "channel" (.obj []))
              let channel_id ← liftE (jGetE chObj "id")
              slackSendPhase w message channel_id
  else do
    let channelStr ←
      match channel with
      | none => pyRaise (.typeError "NoneType object has no attribute lstrip")
      | some c => pure c
    let channel_name := lstripHash channelStr
    let (status, channels_data, _) ←
      doSlackCall w.channelsPublic "GET" "https://slack.com/api/conversations.list" none
    if status ≠ 200 then
      pure (okFalse ("HTTP error " ++ toString status ++ " when listing channels"))
    else do
      let okv ← liftE (jGetE channels_data "ok")
      if !pyTruthyJ okv then do
        let errv ← liftE (jGetDE channels_data "error" (.str "Unknown error"))
        if jEqStr errv "invalid_auth" then pure (okFalse "Invalid Slack token")
        else pure (okFalse ("Could not list channels: " ++ fShowJ errv))
      else do
        let chans ← liftE (do let c ← jGetDE channels_data "channels" (.arr []); jArrE c)
        let channel_id ← liftE (findChannelId chans channel_name)
        let channel_id2 ←
          if !pyTruthyJ channel_id then do
            let (statusP, privBody, _) ←
              doSlackCall w.channelsPrivate "GET"
                "https://slack.com/api/conversations.list?types=private_channel" none
            if statusP = 200 then do
              let okp ← liftE (jGetE privBody "ok")
              if pyTruthyJ okp then do
                let chansP ← liftE (do let c ← jGetDE privBody "channels" (.arr []); jArrE c)
                liftE (findChannelId chansP channel_name)
              else pure channel_id
            else pure channel_id
          else pure channel_id
        if !pyTruthyJ channel_id2 then
          pure (okFalse ("Channel '" ++ channel_name ++ "' not found. Bot may not be added to this channel."))
        else slackSendPhase w message channel_id2

/-- The `str(e)` message attached to a Python exception. -/
def pyExnMsg : PyExn → String
  | .timeout m => m
  | .connError m => m
  | .keyError m => m
  | .typeError m => m
  | .valueError m => m
  | .attrError m => m
  | .langgraphError m => m

/-- Source `_call_send_slack_message`: the whole body sits in a `try`
whose handlers turn a timeout, a connection error, and ANY other exception
into an `{"ok": False, "error": ...}` dict — this helper never raises. -/
def call_send_slack_message (w : SlackWorld) (message channel user : Option String) :
    JVal × List Call :=
  match runCallM (slackBody w message channel user) with
  | (.ok j, calls) => (j, calls)
  | (.error e, calls) =>
    match e with
    | .timeout _ => (okFalse "Slack API timeout", calls)
    | .connError m => (okFalse ("Slack API connection error: " ++ m), calls)
    | other => (okFalse ("Unexpected error: " ++ pyExnMsg other), calls)

/-! ## Workflow state, nodes, graph -/

/-- The `WorkflowState` TypedDict (the compound/slack-specific fields that
no embedded code path reads are omitted).  `process_query`'s initial state
stores `None` in every field except `user_query`; the `branch_name` and
`source_branch` keys are absent from the initial dict, which `none`
also represents (relevant only to the `.get(key, default)` reads noted at
their use sites). -/
structure WorkflowState where
  user_query : String
  action_type : Option String := none
  repo_name : Option String := none
  issue_number : Option Int := none
  comment_body : Option String := none
  issue_title : Option String := none
  issue_body : Option String := none
  api_response : Option JVal := none
  error_message : Option String := none
  branch_name : Option String := none
  source_branch : Option String := none
deriving Repr

/-- The initial state built by `process_query`. -/
def initial_state (user_query : String) : WorkflowState := { user_query := user_query }

/-- Merge the classifier's dict into the state (LangGraph overwrites the
keys the node returns; the classifier runs on the fresh initial state). -/
def applyDelta (st : WorkflowState) (d : ClassDelta) : WorkflowState :=
  { st with
    action_type := some d.action_type
    repo_name := d.repo_name
    issue_number := d.issue_number
    comment_body := d.comment_body
    issue_title := d.issue_title
    issue_body := d.issue_body
    error_message := d.error_message
    branch_name := d.branch_name
    source_branch := d.source_branch }

/-- The partial state update a terminal handler node returns: every
handler sets `api_response`; only the missing-parameter branches also set
`error_message`. -/
structure NodeUpdate where
  api_response : Option JVal := none
  error_message : Option String := none
deriving Repr

/-- Merge a handler node's dict into the state (keys the node omitted stay
unchanged). -/
def applyUpdate (st : WorkflowState) (u : NodeUpdate) : WorkflowState :=
  { st with
    api_response := match u.api_response with | some j => some j | none => st.api_response
    error_message := match u.error_message with | some m => some m | none => st.error_message }

/-- Source `_create_issue_node`. -/
def create_issue_node (w : GithubWorld) (p : Processor) (state : WorkflowState) :
    CallM NodeUpdate := do
  let repo_name := state.repo_name
  let title := pyOrS state.issue_title ("Issue from query: " ++ state.user_query.take 50 ++ "...")
  let body := pyOrS state.issue_body ("Details based on user query: " ++ state.user_query)
  if !pyTruthyOS repo_name then
    pure { api_response := some (.obj [("error", .str "Repository name not extracted for creating issue.")]),
           error_message := some "Repo name missing" }
  else do
    let response ← call_create_github_issue w p (repo_name.getD "") title body
    pure { api_response := some response }

/-- Source `_list_issues_node`. -/
def list_issues_node (w : GithubWorld) (p : Processor) (state : WorkflowState) :
    CallM NodeUpdate := do
  if !pyTruthyOS state.repo_name then
    pure { api_response := some (.obj [("error", .str "Repository name not extracted for listing issues.")]),
           error_message := some "Repo name missing" }
  else do
    let response ← call_list_github_issues w p (state.repo_name.getD "")
    pure { api_response := some response }

/-- Source `_get_issue_node`. -/
def get_issue_node (w : GithubWorld) (p : Processor) (state : WorkflowState) :
    CallM NodeUpdate := do
  if !pyTruthyOS state.repo_name || !pyTruthyOI state.issue_number then
    pure { api_response := some (.obj [("error", .str "Repo name or issue number not extracted.")]),
           error_message := some "Repo/Issue num missing" }
  else do
    let response ← call_get_github_issue w p (state.repo_name.getD "") (state.issue_number.getD 0)
    pure { api_response := some response }

/-- Source `_comment_issue_node`. -/
def comment_issue_node (w : GithubWorld) (p : Processor) (state : WorkflowState) :
    CallM NodeUpdate := do
  if !pyTruthyOS state.repo_name || !pyTruthyOI state.issue_number
      || !pyTruthyOS state.comment_body then
    pure { api_response := some (.obj [("error", .str "Repo, issue num, or comment not extracted.")]),
           error_message := some "Params missing for comment" }
  else do
    let response ← call_comment_on_github_issue w p (state.repo_name.getD "")
      (state.issue_number.getD 0) (state.comment_body.getD "")
    pure { api_response := some response }

/-- Source `_slack_message_node`: extracts the target from the raw query
and calls the send helper, which never raises; the node itself therefore
never raises and always returns only `api_response`. -/
def slack_message_node (w : SlackWorld) (state : WorkflowState) : CallM NodeUpdate :=
  fun cs =>
    let slack_target := extract_slack_target state.user_query
    let message := slack_target.message
    let user := slack_target.user
    let channel := if pyTruthyOS user then none else slack_target.channel
    let rc := call_send_slack_message w message channel user
    (.ok { api_response := some rc.1 }, cs ++ rc.2)

/-- Source `_list_branches_node`. -/
def list_branches_node (w : GithubWorld) (p : Processor) (state : WorkflowState) :
    CallM NodeUpdate := do
  if !pyTruthyOS state.repo_name then
    pure { api_response := some (.obj [("error", .str "Repository name not extracted for listing branches.")]),
           error_message := some "Repo name missing" }
  else do
    let response ← call_list_github_branches w p (state.repo_name.getD "")
    pure { api_response := some response }

/-- Source `_get_branch_node`. -/
def get_branch_node (w : GithubWorld) (p : Processor) (state : WorkflowState) :
    CallM NodeUpdate := do
  if !pyTruthyOS state.repo_name || !pyTruthyOS state.branch_name then
    pure { api_response := some (.obj [("error", .str "Repository name or branch name not extracted.")]),
           error_message := some "Repo/Branch name missing" }
  else do
    let response ← call_get_github_branch w p (state.repo_name.getD "") (state.branch_name.getD "")
    pure { api_response := some response }

/-- Source `_create_branch_node` (`state.get("source_branch", "main")`,
with the key absent from the initial dict). -/
def create_branch_node (w : GithubWorld) (p : Processor) (state : WorkflowState) :
    CallM NodeUpdate := do
  let source_branch := state.source_branch.getD "main"
  if !pyTruthyOS state.repo_name || !pyTruthyOS state.branch_name then
    pure { api_response := some (.obj [("error", .str "Repository name or branch name not extracted.")]),
           error_message := some "Repo/Branch name missing" }
  else do
    let response ← call_create_github_branch w p (state.repo_name.getD "")
      (state.branch_name.getD "") source_branch
    pure { api_response := some response }

/-- Source `_unhandled_action_node` (the `error_message` it reads is
unused; the returned dict has only `api_response`). -/
def unhandled_action_node (state : WorkflowState) : NodeUpdate :=
  { api_response := some (.obj [
      ("message", .str "I didn't understand your request. Here are some things you can try:"),
      ("suggestions", .arr [
        .str "Try: 'create an issue in repo my-project'",
        .str "Try: 'list issues in repository backend'",
        .str "Try: 'show issue #123 in repo frontend'",
        .str "Try: 'send a message to the team'"]),
      ("your_request", .str state.user_query)]) }

/-- Source `_needs_clarification_node` (`state.get("repo_name", "the
repository")`: the key is present from the initial state, so a missing
repo renders as the f-string of `None`). -/
def needs_clarification_node (state : WorkflowState) : NodeUpdate :=
  { api_response := some (.obj [
      ("message", .str ("I understand you want to create an issue in " ++ fShowOS state.repo_name
        ++ ". What specific problem or feature would you like to report?")),
      ("type", .str "clarification_request"),
      ("context", .str "issue_creation")]) }

/-- Source `_general_response_node`: the model reply is an oracle (`none`
models `generate_content` raising, which the node's own `try` turns into
the fixed greeting). -/
def general_response_node (geminiGeneral : Option String) (_state : WorkflowState) : NodeUpdate :=
  match geminiGeneral with
  | some t =>
    { api_response := some (.obj [("message", .str (pyStrip t)),
        ("type", .str "general_conversation")]) }
  | none =>
    { api_response := some (.obj [
        ("message", .str "Hello! I'm DevCascade, your DevOps automation assistant. How can I help you today?"),
        ("type", .str "general_conversation")]) }

/-- The conditional-edge map of `_build_graph`: the eleven known
`action_type` values and their target nodes.  There is no wildcard entry;
an `action_type` outside this map has no route. -/
def dispatch_targets (a : String) : Option String :=
  if a = "github_create_issue" then some "github_create_issue_node"
  else if a = "github_list_issues" then some "github_list_issues_node"
  else if a = "github_get_issue" then some "github_get_issue_node"
  else if a = "github_comment_issue" then some "github_comment_issue_node"
  else if a = "slack_send_message" then some "slack_message_node"
  else if a = "unhandled" then some "unhandled_action_node"
  else if a = "general_response" then some "general_response_node"
  else if a = "needs_clarification" then some "needs_clarification_node"
  else if a = "github_list_branches" then some "github_list_branches_node"
  else if a = "github_get_branch" then some "github_get_branch_node"
  else if a = "github_create_branch" then some "github_create_branch_node"
  else none

/-- The closed intent vocabulary of the spec's dispatch table. -/
def intentVocabulary : List String :=
  ["github_create_issue", "github_list_issues", "github_get_issue",
   "github_comment_issue", "github_list_branches", "github_get_branch",
   "github_create_branch", "slack_send_message", "general_response",
   "needs_clarification", "unhandled"]

/-- The full environment of one query: the two model-call oracles and the
two service worlds. -/
structure Worlds where
  gemini : Option String
  geminiGeneral : Option String
  github : GithubWorld
  slack : SlackWorld

/-- Dispatch one terminal node by its graph name. -/
def run_node (name : String) (w : Worlds) (p : Processor) (st : WorkflowState) :
    CallM NodeUpdate :=
  if name = "github_create_issue_node" then create_issue_node w.github p st
  else if name = "github_list_issues_node" then list_issues_node w.github p st
  else if name = "github_get_issue_node" then get_issue_node w.github p st
  else if name = "github_comment_issue_node" then comment_issue_node w.github p st
  else if name = "slack_message_node" then slack_message_node w.slack st
  else if name = "unhandled_action_node" then pure (unhandled_action_node st)
  else if name = "general_response_node" then pure (general_response_node w.geminiGeneral st)
  else if name = "needs_clarification_node" then pure (needs_clarification_node st)
  else if name = "github_list_branches_node" then list_branches_node w.github p st
  else if name = "github_get_branch_node" then get_branch_node w.github p st
  else if name = "github_create_branch_node" then create_branch_node w.github p st
  else pyRaise (.langgraphError ("unknown node " ++ name))

/-- One `self.app.invoke(initial_state)`: classify, route by
`state.get("action_type", "unhandled")`, run exactly one terminal node,
reach END.  A routing value with no entry in the edge map makes the graph
runtime raise, and a handler exception propagates. -/
def invoke_graph (w : Worlds) (p : Processor) (user_query : String) :
    Except PyExn WorkflowState × List Call :=
  let st0 := initial_state user_query
  let delta := classify_and_extract w.gemini user_query
  let st1 := applyDelta st0 delta
  let key := st1.action_type.getD "unhandled"
  match dispatch_targets key with
  | none => (.error (.langgraphError ("Branch condition returned unknown target: " ++ key)), [])
  | some node =>
    match runCallM (run_node node w p st1) with
    | (.ok u, calls) => (.ok (applyUpdate st1 u), calls)
    | (.error e, calls) => (.error e, calls)

/-! ## Response formatter and `process_query` -/

/-- The `f"#{issue['number']} - {issue['title']}"` lines of the
list-issues template; the bare indexing raises `KeyError` on a malformed
entry. -/
def listIssuesSummary : List JVal → Except PyExn (List String)
  | [] => .ok []
  | issue :: rest => do
    let n ← jIndexE issue "number"
    let t ← jIndexE issue "title"
    let others ← listIssuesSummary rest
    .ok (("#" ++ fShowJ n ++ " - " ++ fShowJ t) :: others)

/-- The `f"• {branch['name']}"` lines of the list-branches template. -/
def listBranchesSummary : List JVal → Except PyExn (List String)
  | [] => .ok []
  | branch :: rest => do
    let n ← jIndexE branch "name"
    let prot ← jGetE branch "protected"
    let others ← listBranchesSummary rest
    .ok (("• " ++ fShowJ n ++ (if pyTruthyJ prot then " (default)" else "")) :: others)

/-- Source `_format_response`, branch for a present, truthy
`api_response` that is not a dict-with-error. -/
def formatByAction (final_state : WorkflowState) (api_response : JVal) :
    Except PyExn String := do
  let action_type := final_state.action_type
  if action_type = some "github_create_issue" then do
    let html ← jGetE api_response "html_url"
    if pyTruthyJ html then
      pure ("✅ Successfully created GitHub issue: " ++ fShowJ html)
    else pure "❌ GitHub issue creation seems to have failed or returned an unexpected response."
  else if action_type = some "github_list_issues" then
    match api_response with
    | .arr issues => do
      let issues_summary ← listIssuesSummary (issues.take 3)
      let summary_str := String.intercalate "\n" issues_summary
      let summary_str :=
        if issues.length > 3 then
          summary_str ++ "\n... and " ++ toString (issues.length - 3) ++ " more."
        else summary_str
      pure ("📋 Found " ++ toString issues.length ++ " issues in repo '"
        ++ fShowOS final_state.repo_name ++ "':\n" ++ summary_str)
    | _ => pure "❌ Could not retrieve or parse the list of GitHub issues."
  else if action_type = some "github_get_issue" then do
    let html ← jGetE api_response "html_url"
    let title ← jGetE api_response "title"
    if pyTruthyJ html && pyTruthyJ title then do
      let n ← jGetE api_response "number"
      pure ("🔍 Details for issue #" ++ fShowJ n ++ " in repo '"
        ++ fShowOS final_state.repo_name ++ "':\nTitle: " ++ fShowJ title
        ++ "\nURL: " ++ fShowJ html)
    else pure "❌ Could not retrieve details for the GitHub issue."
  else if action_type = some "github_comment_issue" then do
    let html ← jGetE api_response "html_url"
    if pyTruthyJ html then
      pure ("💬 Successfully commented on GitHub issue: " ++ fShowJ html)
    else pure "❌ GitHub issue comment seems to have failed or returned an unexpected response."
  else if action_type = some "slack_send_message" then do
    let okv ← jGetE api_response "ok"
    if pyTruthyJ okv then do
      let ch ← jGetE api_response "channel"
      let ts ← jGetE api_response "ts"
      pure ("💬 Successfully sent Slack message to channel " ++ fShowJ ch
        ++ " (Timestamp: " ++ fShowJ ts ++ ").")
    else do
      let errv ← jGetDE api_response "error" (.str "Unknown Slack error")
      pure ("❌ Failed to send Slack message. Error: " ++ fShowJ errv)
  else if action_type = some "unhandled" then do
    let sugg ← jGetE api_response "suggestions"
    if pyTruthyJ sugg then do
      let xs ← do
        let raw ← jIndexE api_response "suggestions"
        jArrE raw
      let suggestions_text := String.intercalate "\n" (xs.map (fun s => "• " ++ fShowJ s))
      let msg ← jGetDE api_response "message" (.str "I couldn't understand your request.")
      let yr ← jGetE api_response "your_request"
      pure ("🤔 " ++ fShowJ msg ++ "\n\n" ++ suggestions_text
        ++ "\n\nYour request was: '" ++ fShowJ yr ++ "'")
    else pure "🤔 I couldn't understand or handle your request. Please try being more specific."
  else if action_type = some "general_response" then do
    let msg ← jGetE api_response "message"
    if pyTruthyJ msg then pure (fShowJ msg)
    else pure "Hello! How can I help you today?"
  else if action_type = some "github_list_branches" then
    match api_response with
    | .arr branches => do
      let branches_summary ← listBranchesSummary (branches.take 10)
      let summary_str := String.intercalate "\n" branches_summary
      let summary_str :=
        if branches.length > 10 then
          summary_str ++ "\n... and " ++ toString (branches.length - 10) ++ " more."
        else summary_str
      pure ("🌿 Found " ++ toString branches.length ++ " branches in repo '"
        ++ fShowOS final_state.repo_name ++ "':\n" ++ summary_str)
    | _ => pure "❌ Could not retrieve or parse the list of GitHub branches."
  else if action_type = some "github_get_branch" then do
    let namev ← jGetE api_response "name"
    if pyTruthyJ namev then do
      let commitv ← jGetDE api_response "commit" (.obj [])
      let shav ← jGetDE commitv "sha" (.str "Unknown")
      let commit_sha ←
        match shav with
        | .str s => Except.ok (s.take 8)
        | _ => Except.error (.typeError "value is not subscriptable")
      let protv ← jGetDE api_response "protected" (.bool false)
      pure ("🌿 Details for branch '" ++ fShowJ namev ++ "' in repo '"
        ++ fShowOS final_state.repo_name ++ "':\nLatest commit: " ++ commit_sha
        ++ "\nProtected: " ++ fShowJ protv)
    else pure "❌ Could not retrieve details for the GitHub branch."
  else if action_type = some "github_create_branch" then do
    let refv ← jGetE api_response "ref"
    if pyTruthyJ refv then do
      let refRaw ← jIndexE api_response "ref"
      let branch_name ←
        match refRaw with
        | .str s => Except.ok (s.replace "refs/heads/" "")
        | _ => Except.error (.attrError "object has no attribute replace")
      pure ("✅ Successfully created branch '" ++ branch_name ++ "' in repo '"
        ++ fShowOS final_state.repo_name ++ "' from '"
        ++ (final_state.source_branch.getD "main") ++ "'")
    else pure "❌ GitHub branch creation seems to have failed or returned an unexpected response."
  else
    pure ("Action '" ++ fShowOS action_type ++ "' completed. Raw response: "
      ++ jDumps api_response 0)

/-- Source `_format_response`: a set `error_message` short-circuits, a
falsy `api_response` yields the fixed no-response line, a dict with a
truthy `error` key renders the uniform upstream-error line, otherwise the
per-intent template applies. -/
def format_response (final_state : WorkflowState) : Except PyExn String := do
  if pyTruthyOS final_state.error_message then
    pure ("Error processing your request: " ++ fShowOS final_state.error_message)
  else
    let truthyResp := match final_state.api_response with
      | some j => pyTruthyJ j
      | none => false
    if !truthyResp then pure "No API response was received."
    else do
      let api_response := final_state.api_response.getD .null
      let isDictWithErr ←
        match api_response with
        | .obj _ => do
          let e ← jGetE api_response "error"
          Except.ok (pyTruthyJ e)
        | _ => Except.ok false
      if isDictWithErr then do
        let e ← jGetE api_response "error"
        let d ← jGetDE api_response "details" (.str "N/A")
        pure ("API Error (" ++ fShowOS final_state.action_type ++ "): " ++ fShowJ e
          ++ ". Details: " ++ fShowJ d)
      else formatByAction final_state api_response

/-- Source `process_query`: build the fresh initial state, invoke the
graph (whose exceptions propagate unchanged), format the final state. -/
def process_query (w : Worlds) (p : Processor) (user_query : String) : Except PyExn String :=
  match invoke_graph w p user_query with
  | (.ok final_state, _) => format_response final_state
  | (.error e, _) => .error e

/-! ## Concrete environments and states used by the theorems -/

/-- Boolean success test for `Except`. -/
def exceptIsOk {ε α : Type} : Except ε α → Bool
  | .ok _ => true
  | .error _ => false

/-- A GitHub world whose transport always raises a connection error. -/
def ghDown : GithubWorld := fun _ _ => .raises (.connError "connection refused")

/-- A Slack world whose transport always raises. -/
def slackIdle : SlackWorld :=
  ⟨.raises (.connError "down"), .raises (.connError "down"), .raises (.connError "down"),
   .raises (.connError "down"), .raises (.connError "down")⟩

/-- A concrete credential bundle. -/
def procDemo : Processor := ⟨"gh-token", "slack-token", "owner"⟩

/-- Both model calls raise; both services raise. -/
def worldsDown : Worlds := ⟨none, none, ghDown, slackIdle⟩

/-- The model replies with an out-of-vocabulary ACTION line. -/
def worldsCoffee : Worlds := ⟨some "ACTION: make_coffee", none, ghDown, slackIdle⟩

/-- A cooperative Slack workspace: one member `alice`, one public channel
`general`, and all endpoints succeeding. -/
def slackOK : SlackWorld :=
  { usersList := .resp 200 (.obj [("ok", .bool true),
      ("members", .arr [.obj [("name", .str "alice"), ("id", .str "U1")]])]) ""
    conversationsOpen := .resp 200 (.obj [("ok", .bool true),
      ("channel", .obj [("id", .str "D1")])]) ""
    channelsPublic := .resp 200 (.obj [("ok", .bool true),
      ("channels", .arr [.obj [("name", .str "general"), ("id", .str "C1")]])]) ""
    channelsPrivate := .resp 200 (.obj [("ok", .bool true), ("channels", .arr [])]) ""
    postMessage := .resp 200 (.obj [("ok", .bool true), ("channel", .str "C1"),
      ("ts", .str "1")]) "" }

/-- A GitHub world where the source-branch lookup for `svc`/`main` answers
404 and anything else raises. -/
def ghBranch404 : GithubWorld := fun method url =>
  if method = "GET" && url = "https://api.github.com/repos/owner/svc/git/refs/heads/main" then
    .resp 404 (.obj [("message", .str "Not Found")]) "Not Found"
  else .raises (.connError "unexpected request")

/-- A state as produced by a classifier output with
`action_type = github_create_issue` and `repo_name = None`. -/
def stNoRepoCreate : WorkflowState :=
  { user_query := "create an issue", action_type := some "github_create_issue" }

/-- The update the create-issue handler returns on a missing repo name. -/
def uNoRepoCreate : NodeUpdate :=
  { api_response := some (.obj [("error", .str "Repository name not extracted for creating issue.")]),
    error_message := some "Repo name missing" }

/-- The spec's invariant "exactly one of `{api_response, error_message}`
is meaningfully set": `api_response` present, or a truthy
`error_message`, but not both. -/
def exactlyOneSetB (st : WorkflowState) : Bool :=
  (st.api_response.isSome && !pyTruthyOS st.error_message)
    || (!st.api_response.isSome && pyTruthyOS st.error_message)

/-- A 60-character content clause. -/
def longContent : String := "aaaaaaaaaaaaaaaaaaaaaaaaaaaaaaaaaaaaaaaaaaaaaaaaaaaaaaaaaaaa"

/-! ## Claims -/

set_option maxHeartbeats 2000000

set_option maxRecDepth 16384

/-- C6: the heuristic fallback never returns the `unhandled` intent (every
branch of `_fallback_classification`, including the fall-through default,
carries a concrete non-`unhandled` action), and on the query
`"list issues in repo x"` it yields `github_list_issues` with repo `"x"`. -/
theorem C6_fallback_never_unhandled :
    (∀ q : String, (fallback_classification q).action_type ≠ "unhandled")
    ∧ (fallback_classification "list issues in repo x").action_type = "github_list_issues"
    ∧ (fallback_classification "list issues in repo x").repo_name = some "x" := by
  refine ⟨?_, rfl, rfl⟩
  intro q
  simp only [fallback_classification]
  generalize pyStrip (pyLower q) = ql
  generalize extract_repo_name q = rn
  generalize extract_issue_number q = inum
  generalize extract_issue_content q = ic
  generalize extract_branch_name q = bn
  generalize pyOrS (extract_source_branch q) "main" = sb
  split_ifs <;> (try cases ic) <;> (try dsimp only []) <;> decide

/-- C7: on a classifier output with `action_type = github_create_issue`
and `repo_name = None`, the create-issue handler returns the
missing-parameter update with `error_message` set, and its call log is
empty: no network request is attempted. -/
theorem C7_no_network_on_missing_repo (w : GithubWorld) (p : Processor)
    (st : WorkflowState) (h : st.repo_name = none) :
    runCallM (create_issue_node w p st) = (.ok uNoRepoCreate, []) := by
  unfold create_issue_node runCallM uNoRepoCreate
  simp [h, pyTruthyOS, CallM.pure, Pure.pure]

/-- Witness for C7 at the concrete state. -/
theorem C7_witness :
    runCallM (create_issue_node ghDown procDemo stNoRepoCreate) = (.ok uNoRepoCreate, []) :=
  C7_no_network_on_missing_repo ghDown procDemo stNoRepoCreate (by rfl)

/-- C9: the second `_extract_branch_name` definition — the one bound on
the processor — returns `None` on every input (its body never returns), so
the fallback's `branch_name` is `None` on every query, its
`github_get_branch` inner case (guarded by a truthy branch name) is
unreachable, while the shadowed first definition does extract a name. -/
theorem C9_branch_extractor_shadowed :
    (∀ q : String, extract_branch_name q = none)
    ∧ (∀ q : String, (fallback_classification q).branch_name = none)
    ∧ (∀ q : String, (fallback_classification q).action_type ≠ "github_get_branch")
    ∧ extract_branch_name_shadowed "create branch hotfix-1 from main in repo svc" =
        some "hotfix-1" := by
  refine ⟨fun q => rfl, ?_, ?_, rfl⟩
  · intro q
    simp only [fallback_classification, extract_branch_name]
    generalize pyStrip (pyLower q) = ql
    generalize extract_repo_name q = rn
    generalize extract_issue_number q = inum
    generalize extract_issue_content q = ic
    generalize pyOrS (extract_source_branch q) "main" = sb
    split_ifs <;> (try cases ic) <;> (try dsimp only []) <;> decide
  · intro q
    simp only [fallback_classification, extract_branch_name]
    generalize pyStrip (pyLower q) = ql
    generalize extract_repo_name q = rn
    generalize extract_issue_number q = inum
    generalize extract_issue_content q = ic
    generalize pyOrS (extract_source_branch q) "main" = sb
    split_ifs <;> (try cases ic) <;> (try dsimp only []) <;>
      (first | decide | simp_all [pyTruthyOS])

/-- C10: greeting detection in the fallback is substring containment over
the lowercased stripped query, so any query containing a greeting word
anywhere — even inside another word such as `"this"` — is classified
`general_response` before any issue/branch/slack keyword is considered. -/
theorem C10_greeting_substring (q g : String)
    (hg : g ∈ greeting_patterns) (hc : strContains (pyStrip (pyLower q)) g = true) :
    fallback_classification q = { action_type := "general_response" } := by
  have hany : anyIn greeting_patterns (pyStrip (pyLower q)) = true := by
    unfold anyIn
    exact List.any_eq_true.mpr ⟨g, hg, hc⟩
  simp only [fallback_classification]
  rw [if_pos hany]

/-- Witness for C10: `"show this branch in repo x"` contains `"hi"` inside
`"this"` and is routed to `general_response` despite its branch keywords. -/
theorem C10_witness :
    fallback_classification "show this branch in repo x" =
      { action_type := "general_response" } :=
  C10_greeting_substring "show this branch in repo x" "hi" (by decide) (by decide)

/-- Helper: a handler whose parameter check passed wraps the helper's
result as `api_response` only; whenever such a run ends in `.ok`, the
update carries an `api_response` and no `error_message`. -/
theorem nodeWrapOk (m : CallM JVal) (u : NodeUpdate) (calls : List Call)
    (h : runCallM (do let r ← m; (pure { api_response := some r } : CallM NodeUpdate)) =
      (.ok u, calls)) :
    u.api_response.isSome = true ∧ u.error_message = none := by
  unfold runCallM at h
  rcases hm : m [] with ⟨ex, cs⟩
  simp only [Bind.bind, CallM.bind, hm] at h
  cases ex with
  | ok a =>
    simp only [Pure.pure, CallM.pure] at h
    have hu : NodeUpdate.mk (some a) none = u := by
      have := congrArg Prod.fst h
      simpa using this
    rw [hu.symm]
    exact ⟨rfl, rfl⟩
  | error e => simp at h

/-- C1 counterexample: on a classifier output with
`action_type = github_create_issue` and `repo_name = None`, the
create-issue handler's update sets BOTH `api_response` (an error dict) and
`error_message`, so the state after the handler violates the
exactly-one-of-two invariant. -/
theorem C1_counterexample :
    (runCallM (create_issue_node ghDown procDemo stNoRepoCreate)).1 = .ok uNoRepoCreate
    ∧ exactlyOneSetB (applyUpdate stNoRepoCreate uNoRepoCreate) = false := ⟨rfl, rfl⟩

/-- Helper: every GitHub handler node has the same guard shape — when the
parameter check fails it returns the error `api_response` together with
`error_message` and stops, otherwise it wraps the helper result as
`api_response` alone; so any `.ok` run has `api_response` set and
`error_message` set exactly when the guard fired. -/
theorem nodeGuardSpec (cond : Bool) (errResp : JVal) (errMsg : String) (m : CallM JVal)
    (u : NodeUpdate) (calls : List Call)
    (h : runCallM (if cond then
          (pure { api_response := some errResp, error_message := some errMsg } : CallM NodeUpdate)
        else do
          let r ← m
          (pure { api_response := some r } : CallM NodeUpdate)) = (.ok u, calls)) :
    u.api_response.isSome = true ∧ u.error_message.isSome = cond := by
  cases cond with
  | true =>
    rw [if_pos rfl] at h
    unfold runCallM at h
    simp only [Pure.pure, CallM.pure] at h
    have hu : NodeUpdate.mk (some errResp) (some errMsg) = u := by
      have := congrArg Prod.fst h
      simpa using this
    rw [hu.symm]
    exact ⟨rfl, rfl⟩
  | false =>
    rw [if_neg (by decide : ¬(false = true))] at h
    have hw := nodeWrapOk m u calls h
    exact ⟨hw.1, by rw [hw.2]; rfl⟩

/-- C1 amended, for every handler node of the graph: whenever a handler
run ends without an exception, `api_response` is set; each GitHub handler
sets `error_message` exactly when its required parameters are missing — in
that case BOTH fields are set, not one; the Slack handler and the
unhandled / needs-clarification / general-response terminal nodes return
only `api_response` and never set `error_message` (the Slack handler in
particular validates nothing, not even a missing message body). -/
theorem C1_amended_api_always_error_iff_missing (gw : GithubWorld) (sw : SlackWorld)
    (p : Processor) (st : WorkflowState) :
    (∀ u calls, runCallM (create_issue_node gw p st) = (.ok u, calls) →
        u.api_response.isSome = true
          ∧ u.error_message.isSome = !pyTruthyOS st.repo_name)
    ∧ (∀ u calls, runCallM (list_issues_node gw p st) = (.ok u, calls) →
        u.api_response.isSome = true
          ∧ u.error_message.isSome = !pyTruthyOS st.repo_name)
    ∧ (∀ u calls, runCallM (get_issue_node gw p st) = (.ok u, calls) →
        u.api_response.isSome = true
          ∧ u.error_message.isSome =
              (!pyTruthyOS st.repo_name || !pyTruthyOI st.issue_number))
    ∧ (∀ u calls, runCallM (comment_issue_node gw p st) = (.ok u, calls) →
        u.api_response.isSome = true
          ∧ u.error_message.isSome =
              (!pyTruthyOS st.repo_name || !pyTruthyOI st.issue_number
                || !pyTruthyOS st.comment_body))
    ∧ (∀ u calls, runCallM (list_branches_node gw p st) = (.ok u, calls) →
        u.api_response.isSome = true
          ∧ u.error_message.isSome = !pyTruthyOS st.repo_name)
    ∧ (∀ u calls, runCallM (get_branch_node gw p st) = (.ok u, calls) →
        u.api_response.isSome = true
          ∧ u.error_message.isSome =
              (!pyTruthyOS st.repo_name || !pyTruthyOS st.branch_name))
    ∧ (∀ u calls, runCallM (create_branch_node gw p st) = (.ok u, calls) →
        u.api_response.isSome = true
          ∧ u.error_message.isSome =
              (!pyTruthyOS st.repo_name || !pyTruthyOS st.branch_name))
    ∧ (∀ u cs cs2, slack_message_node sw st cs = (.ok u, cs2) →
        u.api_response.isSome = true ∧ u.error_message = none)
    ∧ ((unhandled_action_node st).api_response.isSome = true
        ∧ (unhandled_action_node st).error_message = none)
    ∧ ((needs_clarification_node st).api_response.isSome = true
        ∧ (needs_clarification_node st).error_message = none)
    ∧ (∀ g, (general_response_node g st).api_response.isSome = true
        ∧ (general_response_node g st).error_message = none) := by
  refine ⟨?_, ?_, ?_, ?_, ?_, ?_, ?_, ?_, ⟨rfl, rfl⟩, ⟨rfl, rfl⟩, ?_⟩
  · intro u calls h
    unfold create_issue_node at h
    exact nodeGuardSpec _ _ _ _ u calls h
  · intro u calls h
    unfold list_issues_node at h
    exact nodeGuardSpec _ _ _ _ u calls h
  · intro u calls h
    unfold get_issue_node at h
    exact nodeGuardSpec _ _ _ _ u calls h
  · intro u calls h
    unfold comment_issue_node at h
    exact nodeGuardSpec _ _ _ _ u calls h
  · intro u calls h
    unfold list_branches_node at h
    exact nodeGuardSpec _ _ _ _ u calls h
  · intro u calls h
    unfold get_branch_node at h
    exact nodeGuardSpec _ _ _ _ u calls h
  · intro u calls h
    unfold create_branch_node at h
    exact nodeGuardSpec _ _ _ _ u calls h
  · intro u cs cs2 h
    unfold slack_message_node at h
    have h1 := congrArg Prod.fst h
    simp only at h1
    injection h1 with h2
    rw [← h2]
    exact ⟨rfl, rfl⟩
  · intro g
    cases g <;> exact ⟨rfl, rfl⟩

/-- Witness for C1 amended, at the concrete missing-repo state: both
fields come out set. -/
theorem C1_amended_witness :
    uNoRepoCreate.api_response.isSome = true
      ∧ uNoRepoCreate.error_message.isSome = !pyTruthyOS stNoRepoCreate.repo_name :=
  (C1_amended_api_always_error_iff_missing ghDown slackIdle procDemo stNoRepoCreate).1
    uNoRepoCreate [] (by rfl)

/-- C2 counterexample: a model reply `ACTION: make_coffee` is parsed with
`action_type = "make_coffee"` — NOT normalized to `"unhandled"` — and the
dispatch map has no entry for it, so the graph does not route it to the
unhandled terminal node: invoking the graph raises instead. -/
theorem C2_counterexample :
    (parse_structured_response "ACTION: make_coffee").action_type = "make_coffee"
    ∧ "make_coffee" ∉ intentVocabulary
    ∧ dispatch_targets "make_coffee" = none
    ∧ process_query worldsCoffee procDemo "please make me a coffee" =
        .error (.langgraphError "Branch condition returned unknown target: make_coffee") :=
  ⟨by rfl, by decide, by rfl, by rfl⟩

/-- C2 amended: the parser keeps an out-of-vocabulary `ACTION` string
verbatim (only the literal `"unhandled"` triggers the fallback), and the
dispatch map routes none of the out-of-vocabulary strings anywhere — in
particular not to the unhandled node, so the graph run fails on them. -/
theorem C2_amended_unknown_action_unrouted (a : String) (h : a ∉ intentVocabulary) :
    dispatch_targets a = none
    ∧ (classify_and_extract (some "ACTION: make_coffee") "please make me a coffee").action_type
        = "make_coffee" := by
  constructor
  · simp only [intentVocabulary, List.mem_cons, List.not_mem_nil, or_false, not_or] at h
    obtain ⟨h1, h2, h3, h4, h5, h6, h7, h8, h9, h10, h11⟩ := h
    simp only [dispatch_targets, if_neg h1, if_neg h2, if_neg h3, if_neg h4, if_neg h8,
      if_neg h11, if_neg h9, if_neg h10, if_neg h5, if_neg h6, if_neg h7]
  · rfl

/-- Witness for C2 amended at the out-of-vocabulary string
`"make_coffee"`. -/
theorem C2_amended_witness :
    dispatch_targets "make_coffee" = none
    ∧ (classify_and_extract (some "ACTION: make_coffee") "please make me a coffee").action_type
        = "make_coffee" :=
  C2_amended_unknown_action_unrouted "make_coffee" (by decide)

/-- C3 counterexample: with the model call failing (fallback classifies
`"list issues in repo x"` to the list-issues handler) and the GitHub
transport raising a connection error, the exception propagates out of
`process_query` — a per-query upstream failure is NOT converted into state
fields. -/
theorem C3_counterexample :
    process_query worldsDown procDemo "list issues in repo x" =
      .error (.connError "connection refused") := by rfl

/-- C3 amended: classifier failures and every Slack-handler failure are
converted to data (the Slack node returns `.ok` against every world), and
construction fails fast on a missing model key — but the GitHub helpers
guard only non-2xx statuses, so a transport-level exception in a GitHub
call propagates out of `process_query`. -/
theorem C3_amended_slack_caught_github_raises :
    (∀ (w : SlackWorld) (st : WorkflowState) (cs : List Call),
        exceptIsOk (slack_message_node w st cs).1 = true)
    ∧ process_query worldsDown procDemo "list issues in repo demo" =
        .error (.connError "connection refused")
    ∧ WorkflowProcessor_init "" "ghp-x" "xoxb-x" "owner" =
        .error (.valueError "Gemini API key is required.") := by
  exact ⟨fun w st cs => by rfl, by rfl, by rfl⟩

/-- The state reaching the Slack node on the query `" in general send"`
(whose extraction yields channel `general` and NO message body). -/
def stSlackNoMsg : WorkflowState :=
  applyDelta (initial_state " in general send") (fallback_classification " in general send")

/-- C4 counterexample: the query `" in general send"` is dispatched to the
Slack handler with an extracted message of `None`, yet against a workspace
that resolves the channel the handler posts `chat.postMessage` with a
`null` text — it neither fails fast nor avoids the post. -/
theorem C4_counterexample :
    (extract_slack_target " in general send").message = none
    ∧ (fallback_classification " in general send").action_type = "slack_send_message"
    ∧ (runCallM (slack_message_node slackOK stSlackNoMsg)).2 =
        [⟨"GET", "https://slack.com/api/conversations.list", none⟩,
         ⟨"POST", "https://slack.com/api/chat.postMessage",
          some (.obj [("channel", .str "C1"), ("text", .null)])⟩] := by
  exact ⟨by rfl, by rfl, by rfl⟩

/-- C4 amended: the handler never guards a missing message body.  When no
user and no channel were extracted either, the send helper happens to fail
before any HTTP call (the `None` channel raises inside the catch-all); but
whenever the channel resolves, `chat.postMessage` is issued with the
message as is — `null` text included. -/
theorem C4_amended_no_message_guard :
    (extract_slack_target "send a slack message" = ⟨none, none, none⟩)
    ∧ (∀ w : SlackWorld, call_send_slack_message w none none none =
        (okFalse "Unexpected error: NoneType object has no attribute lstrip", []))
    ∧ (∀ msg : Option String,
        (runCallM (slackBody slackOK msg (some "general") none)).2 =
          [⟨"GET", "https://slack.com/api/conversations.list", none⟩,
           ⟨"POST", "https://slack.com/api/chat.postMessage",
            some (.obj [("channel", .str "C1"), ("text", jOfOptStr msg)])⟩]) := by
  exact ⟨by rfl, fun w => by rfl, fun msg => by rfl⟩

/-- C5: branch creation is two-phase.  With nonempty repo and branch
names, (1) whenever the source-branch lookup returns a non-200 status the
helper returns the error dict naming the source branch and its call log is
exactly the one GET — `POST /git/refs` is never attempted; (2) when the
lookup returns 200 and the body carries `object.sha`, the create-ref POST
is attempted with the new ref pointing at exactly that fetched SHA. -/
theorem C5_create_branch_two_phase (w : GithubWorld) (p : Processor)
    (repo branch source : String) (status : Nat) (body : JVal) (text : String)
    (hrepo : repo.isEmpty = false) (hbranch : branch.isEmpty = false)
    (hGet : w "GET" (ghRepoUrl p repo ("/git/refs/heads/" ++ source)) =
      .resp status body text) :
    (status ≠ 200 →
      runCallM (call_create_github_branch w p repo branch source) =
        (.ok (.obj [("error", .str ("Could not find source branch '" ++ source ++ "'")),
                    ("details", .str text)]),
         [⟨"GET", ghRepoUrl p repo ("/git/refs/heads/" ++ source), none⟩]))
    ∧ (∀ sha : JVal, status = 200 →
        (jIndexE body "object").bind (fun o => jIndexE o "sha") = .ok sha →
        (runCallM (call_create_github_branch w p repo branch source)).2 =
          [⟨"GET", ghRepoUrl p repo ("/git/refs/heads/" ++ source), none⟩,
           ⟨"POST", ghRepoUrl p repo "/git/refs",
            some (.obj [("ref", .str ("refs/heads/" ++ branch)), ("sha", sha)])⟩]) := by
  constructor
  · intro hst
    unfold call_create_github_branch
    rw [if_neg (by simp [hrepo, hbranch])]
    unfold runCallM doRequest emitCall
    simp only [Bind.bind, CallM.bind, Pure.pure, CallM.pure, hGet, if_pos hst,
      List.nil_append]
  · intro sha hst hsha
    subst hst
    unfold call_create_github_branch
    rw [if_neg (by simp [hrepo, hbranch])]
    rcases h1 : jIndexE body "object" with e | o
    · rw [h1] at hsha; simp [Except.bind] at hsha
    · rw [h1] at hsha
      simp only [Except.bind] at hsha
      unfold runCallM doRequest emitCall
      simp only [Bind.bind, CallM.bind, Pure.pure, CallM.pure, liftE, hGet, h1, hsha,
        List.nil_append, if_neg (by decide : ¬(200 : Nat) ≠ 200)]
      rcases hPost : w "POST" (ghRepoUrl p repo "/git/refs") with e2 | ⟨st2, b2, t2⟩
      · exact rfl
      · dsimp only [CallM.pure]
        split_ifs <;> exact rfl

/-- Witness for C5: against the 404-answering world, creating
`hotfix-1` from `main` in `svc` fails with the source-branch error after
exactly one GET and no create-ref POST. -/
theorem C5_witness :
    runCallM (call_create_github_branch ghBranch404 procDemo "svc" "hotfix-1" "main") =
      (.ok (.obj [("error", .str "Could not find source branch 'main'"),
                  ("details", .str "Not Found")]),
       [⟨"GET", "https://api.github.com/repos/owner/svc/git/refs/heads/main", none⟩]) :=
  (C5_create_branch_two_phase ghBranch404 procDemo "svc" "hotfix-1" "main" 404
    (.obj [("message", .str "Not Found")]) "Not Found" (by rfl) (by rfl) (by rfl)).1
    (by decide)

/-- C8 counterexample: on a 60-character `about` clause the extracted
content is the full 60 characters, but the returned title is the first 50
characters WITH `"..."` appended — it is not the content truncated to 50
characters. -/
theorem C8_counterexample :
    issueContentRaw ("about " ++ longContent) = some longContent
    ∧ (extract_issue_content ("about " ++ longContent)).map IssueContent.title =
        some (longContent.take 50 ++ "...")
    ∧ (longContent.take 50 ++ "..." : String) ≠ longContent.take 50 :=
  ⟨by rfl, by rfl, by decide⟩

/-- C8 amended: on any matching descriptive clause the title is the
content itself when it has at most 50 characters, and the first 50
characters followed by `"..."` otherwise; the body wraps the full content;
a bare command with no descriptive clause yields `None`. -/
theorem C8_amended_title_ellipsis (q c : String) (h : issueContentRaw q = some c) :
    extract_issue_content q =
      some ⟨if c.length > 50 then c.take 50 ++ "..." else c,
            "Issue details: " ++ c ++ "\n\nReported via DevCascade automation."⟩
    ∧ issueContentRaw "raise an issue in repo billing" = none
    ∧ extract_issue_content "raise an issue in repo billing" = none
    ∧ extract_issue_content "about login bug in frontend" =
        some ⟨"login bug", "Issue details: login bug\n\nReported via DevCascade automation."⟩ := by
  refine ⟨?_, by rfl, by rfl, by rfl⟩
  unfold extract_issue_content
  rw [h]

/-- Witness for C8 amended at a short clause. -/
theorem C8_amended_witness :
    extract_issue_content "about login bug in frontend" =
      some ⟨if ("login bug" : String).length > 50 then ("login bug" : String).take 50 ++ "..."
              else "login bug",
            "Issue details: " ++ "login bug" ++ "\n\nReported via DevCascade automation."⟩ :=
  (C8_amended_title_ellipsis "about login bug in frontend" "login bug" (by rfl)).1
